import Mathlib

set_option maxRecDepth 100000

/-
Verification of the parallel fan-out push-notification send engine
(NotificationSender.py): token classification, personalization, token
validation, payload construction, per-send outcome classification, batched
aggregation, and the progress counter of the coordinator loop.

Python strings are modelled as Lean String values; the Python string
operations used by the engine (replace, lower, strip, startswith, substring
containment, split) are given structurally recursive models over the
underlying character list so that every definition evaluates by kernel
reduction.
-/

namespace NotifSpec

/-- Model of the Python expression `s.startswith(pre)`. -/
def pyStartsWith (s pre : String) : Bool :=
  pre.data.isPrefixOf s.data

/-- Helper for substring containment: does `pat` occur inside the list. -/
def pyInfixAux (pat : List Char) : List Char → Bool
  | [] => pat.isEmpty
  | c :: rest => pat.isPrefixOf (c :: rest) || pyInfixAux pat rest

/-- Model of the Python expression `pat in s` (substring containment). -/
def pyContains (s pat : String) : Bool :=
  pyInfixAux pat.data s.data

/-- Model of the Python expression `s.lower()` (ASCII case folding). -/
def pyLower (s : String) : String :=
  String.mk (s.data.map Char.toLower)

/-- Model of the Python expression `s.strip()`: drop leading and trailing
whitespace. -/
def pyStrip (s : String) : String :=
  String.mk (((s.data.dropWhile Char.isWhitespace).reverse.dropWhile
    Char.isWhitespace).reverse)

/-- Model of the Python expression `c in s` for a single character `c`. -/
def pyHasChar (s : String) (c : Char) : Bool :=
  s.data.contains c

/-- Fueled worker for `pyReplace`; fuel bounds the number of scanning steps.
With fuel at least the length of the scanned list and a non-empty pattern it
performs the full left-to-right non-overlapping replacement. -/
def pyReplaceAux (pat rep : List Char) : Nat → List Char → List Char
  | 0, l => l
  | _ + 1, [] => []
  | fuel + 1, c :: rest =>
    if pat.isPrefixOf (c :: rest) then
      rep ++ pyReplaceAux pat rep fuel ((c :: rest).drop pat.length)
    else
      c :: pyReplaceAux pat rep fuel rest

/-- Model of the Python expression `s.replace(pat, rep)`: left-to-right,
non-overlapping, replace-all. The engine only ever calls it with the
non-empty placeholder patterns. -/
def pyReplace (s pat rep : String) : String :=
  String.mk (pyReplaceAux pat.data rep.data s.data.length s.data)

/-- Model of the Python expression `name.split()[0]`: the first maximal run
of non-whitespace characters, skipping leading whitespace; `none` models the
IndexError raised when `split()` returns the empty list (name consists of
whitespace only). -/
def pySplitHead (l : List Char) : Option (List Char) :=
  let rest := l.dropWhile Char.isWhitespace
  if rest.isEmpty then none
  else some (rest.takeWhile (fun c => !c.isWhitespace))

/-! ## Token classifier (detect_token_type, lines 126-146) -/

/-- Embedding of `detect_token_type`: the heuristic channel classifier.
Return values are the literal strings of the source: "unknown", "android",
"ios", "fcm". -/
def detect_token_type (token : String) : String :=
  if token = "" ∨ token.length < 10 then "unknown"
  else if pyStartsWith token "APA91b" ∨ pyStartsWith token "AAAA" then "android"
  else if pyStartsWith token "f" ∨ pyStartsWith token "d" ∨
      pyStartsWith token "e" ∨ pyStartsWith token "c" then "ios"
  else if token.length > 140 then "fcm"
  else "android"

/-- Channel tags as the specification names them; the source spells the
universal channel "fcm". -/
inductive Channel where
  | ios
  | android
  | universal
  | unknown
  deriving DecidableEq, Repr

/-- Mapping from the classifier result strings of the source to the
channel tags of the specification ("fcm" is the universal channel). -/
def channelOfCode (s : String) : Channel :=
  if s = "ios" then Channel.ios
  else if s = "android" then Channel.android
  else if s = "fcm" then Channel.universal
  else Channel.unknown

/-- Classifier as the specification words it, rule by rule in order:
null/empty or shorter than 10 characters is unknown; a legacy-Android-style
group character group ("APA91b", "AAAA") is android; one of the
single-character legacy-iOS lead characters ("f", "d", "e", "c") is ios;
longer than 140 characters is universal; otherwise android. -/
def classify_claim (token : String) : Channel :=
  if token = "" ∨ token.length < 10 then Channel.unknown
  else if pyStartsWith token "APA91b" ∨ pyStartsWith token "AAAA" then Channel.android
  else if ["f", "d", "e", "c"].any (fun p => pyStartsWith token p) then Channel.ios
  else if token.length > 140 then Channel.universal
  else Channel.android

/-! ## Personalizer (personalize_text, lines 218-238) -/

/-- The six literal placeholder substitutions of the source, in source
order: the two full-name forms then the four first-name forms. -/
def applyReplacements (text name firstname : String) : String :=
  pyReplace (pyReplace (pyReplace (pyReplace (pyReplace (pyReplace
    text "{name}" name) "{Name}" name)
    "{firstname}" firstname) "{firstName}" firstname)
    "{Firstname}" firstname) "{FirstName}" firstname

/-- Embedding of `personalize_text`. The source computes the first name as
`name.split()[0]` when `name` is truthy; `none` models the IndexError that
this indexing raises when `name` is non-empty but all whitespace. -/
def personalize_text (text name : String) : Option String :=
  if name = "" then some text
  else
    match pySplitHead name.data with
    | none => none
    | some fn => some (applyReplacements text name (String.mk fn))

/-- First name as the claim words it: the substring of `name` up to
(excluding) the first whitespace character, or all of `name` when it has no
whitespace. -/
def firstname_claim (name : String) : String :=
  String.mk (name.data.takeWhile (fun c => !c.isWhitespace))

/-- Personalizer as the claim words it. -/
def personalize_claim (text name : String) : String :=
  if name = "" then text
  else applyReplacements text name (firstname_claim name)

/-- First name as the source actually computes it: the first maximal run of
non-whitespace characters of `name`, skipping leading whitespace. -/
def firstname_word (name : String) : String :=
  String.mk ((name.data.dropWhile Char.isWhitespace).takeWhile
    (fun c => !c.isWhitespace))

/-! ## Token validity pre-filter (validate_token, lines 473-478 and the
valid-token filter, lines 1199-1202) -/

/-- Embedding of `validate_token`: strip, then require
`10 < len < 4096 and (space not in token) and len > 0`. The source checks
only the literal space character, not general whitespace. -/
def validate_token (token : String) : Bool :=
  let t := pyStrip token
  decide (10 < t.length) && decide (t.length < 4096) &&
    !(pyHasChar t ' ') && decide (0 < t.length)

/-- One entry of the token list the engine consumes: the tuple
`(doc_ref, token, is_array, token_type, name)` built by the resolvers. -/
structure RecipientTok where
  doc_ref : Option String
  token : String
  is_array : Bool
  token_type : String
  name : String
  deriving DecidableEq, Repr

/-- Embedding of the pre-send filter loop (lines 1199-1202): keep exactly
the entries whose token passes `validate_token`. -/
def valid_tokens_filter (tokens : List RecipientTok) : List RecipientTok :=
  tokens.filter (fun t => validate_token t.token)

/-! ## Payload builder and platform branch selection (lines 240-339) -/

structure AndroidNotification where
  title : String
  body : String
  sound : String
  click_action : String
  tag : String
  deriving DecidableEq, Repr

structure AndroidConfig where
  notification : AndroidNotification
  priority : String
  ttl : Nat
  data : List (String × String)
  deriving DecidableEq, Repr

structure ApsAlert where
  title : String
  body : String
  deriving DecidableEq, Repr

structure Aps where
  alert : ApsAlert
  sound : String
  badge : Nat
  content_available : Bool
  mutable_content : Bool
  deriving DecidableEq, Repr

structure APNSPayload where
  aps : Aps
  deriving DecidableEq, Repr

structure APNSConfig where
  payload : APNSPayload
  headers : List (String × String)
  deriving DecidableEq, Repr

/-- The outgoing message: token, basic notification, at most one
platform-shaped configuration branch, and the string-valued data block. -/
structure Message where
  token : String
  notification_title : String
  notification_body : String
  android : Option AndroidConfig
  apns : Option APNSConfig
  data : List (String × String)
  deriving DecidableEq, Repr

/-- Embedding of the platform override applied at lines 317-322: the
operator selector is one of "Auto-detect", "Android", "iOS". -/
def applyOverride (forced token_type : String) : String :=
  if forced = "Android" then "android"
  else if forced = "iOS" then "ios"
  else token_type

/-- Embedding of the data payload construction (lines 248-266); `now` models
`int(time.time())`, the campaign fields are optional and skipped when empty
(Python truthiness), cohort tags are comma-joined when present. -/
def build_data_payload (ptitle pbody click_action screen route : String)
    (now : Nat) (campaign_id campaign_name : Option String)
    (cohort_tags : List String) : List (String × String) :=
  [("title", ptitle), ("body", pbody), ("click_action", click_action),
   ("screen", screen), ("route", route), ("from_notification", "true"),
   ("timestamp", toString now)]
  ++ (match campaign_id with
      | some cid => if cid = "" then [] else
          [("campaign_id", cid), ("message_id", cid)]
      | none => [])
  ++ (match campaign_name with
      | some cn => if cn = "" then [] else
          [("campaign_name", cn), ("message_name", cn)]
      | none => [])
  ++ (if cohort_tags.isEmpty then [] else
      [("cohort_tags", String.intercalate "," cohort_tags)])

/-- Embedding of the message construction of `send_single_notification`
(lines 248-339) given the already personalized title and body: build the
data payload, the Android-shaped and the iOS-shaped configurations, apply
the platform override, and attach exactly one platform branch. -/
def buildMessage (forced token token_type ptitle pbody click_action route
    screen : String) (now : Nat) (campaign_id campaign_name : Option String)
    (cohort_tags : List String) (apns_topic : Option String) : Message :=
  let data_payload := build_data_payload ptitle pbody click_action screen
    route now campaign_id campaign_name cohort_tags
  let android_config : AndroidConfig :=
    ⟨⟨ptitle, pbody, "default", click_action, "acn_notification"⟩,
     "high", 3600, data_payload⟩
  let apns_headers := [("apns-priority", "10"), ("apns-push-type", "alert")]
    ++ (match apns_topic with
        | some t => if t = "" then [] else [("apns-topic", t)]
        | none => [])
  let apns_config : APNSConfig :=
    ⟨⟨⟨⟨ptitle, pbody⟩, "default", 1, true, true⟩⟩, apns_headers⟩
  let effective_type := applyOverride forced token_type
  if effective_type = "ios" then
    { token := token, notification_title := ptitle,
      notification_body := pbody, android := none,
      apns := some apns_config, data := data_payload }
  else
    { token := token, notification_title := ptitle,
      notification_body := pbody, android := some android_config,
      apns := none, data := data_payload }

/-! ## Single-send outcome classification (lines 341-383) -/

/-- Outcome of one call of the external transport, as the engine observes
it: a delivery receipt, a FirebaseError carrying a code and a message, or
any other raised exception. -/
inductive TransportResult where
  | ok (receipt : String)
  | fcmError (code msg : String)
  | exc (msg : String)
  deriving DecidableEq, Repr

/-- Embedding of the FirebaseError handler of `send_single_notification`
(lines 345-379): lower-case the code and the message, take the early
iOS-APNs branch, compute `should_prune` from the terminal signals, suppress
it on channel-mismatch auth errors for non-iOS tokens, and return the
`(tag, message)` pair of the matching return statement. Every branch tags
the outcome "error"; no branch tags it "pruned". -/
def send_error_info (token_type error_code raw_msg : String) :
    String × String :=
  let code := pyLower error_code
  let msg := pyLower raw_msg
  if token_type == "ios" &&
      (pyContains msg "auth error from apns" || pyContains msg "apns") then
    ("error", "iOS APNs authentication failed - Check Firebase Console APNs setup")
  else
    let should_prune := pyContains msg "invalid-registration-token" ||
      pyContains msg "unregistered" || code == "not_found"
    let should_prune :=
      if token_type != "ios" && (pyContains msg "auth error from apns" ||
          pyContains msg "auth error from web push service") then false
      else should_prune
    if should_prune then
      ("error", "Invalid/expired token detected (not pruned): " ++ msg.take 80)
    else
      ("error", "FCM error: " ++ raw_msg)

/-- The triple returned by `send_single_notification`:
`(success, response, error_info)`. -/
structure SendRes where
  ok : Bool
  response : Option String
  error_info : Option (String × String)
  deriving DecidableEq, Repr

/-- Embedding of `send_single_notification` restricted to what the batch
worker consumes: the transport either returns a receipt (line 341-343), or
raises a FirebaseError handled by `send_error_info`, or raises any other
exception handled at lines 381-383. -/
def send_single (transport : String → TransportResult)
    (tok : RecipientTok) : SendRes :=
  match transport tok.token with
  | TransportResult.ok receipt => ⟨true, some receipt, none⟩
  | TransportResult.fcmError code msg =>
    ⟨false, none, some (send_error_info tok.token_type code msg)⟩
  | TransportResult.exc msg =>
    ⟨false, none, some ("error", "Unexpected error: " ++ msg)⟩

/-! ## Batch worker and aggregation (send_batch lines 401-438,
send_notifications_parallel lines 441-466) -/

/-- The counter dictionary of the engine, with the keys of the source
(the specification calls fcm_success universal_success). -/
@[ext]
structure Summary where
  success : Nat
  pruned : Nat
  errors : Nat
  ios_success : Nat
  android_success : Nat
  fcm_success : Nat
  deriving DecidableEq, Repr

/-- The all-zero counter dictionary both loops start from. -/
def emptySummary : Summary :=
  ⟨0, 0, 0, 0, 0, 0⟩

/-- Field-wise merge of two summaries: the `for key in summary` loop of the
coordinator (lines 454-455). -/
def addSummary (a b : Summary) : Summary :=
  ⟨a.success + b.success, a.pruned + b.pruned, a.errors + b.errors,
   a.ios_success + b.ios_success, a.android_success + b.android_success,
   a.fcm_success + b.fcm_success⟩

/-- One iteration of the batch worker loop (lines 407-436): classify the
single-send result, bump the matching counters, and append to the error
list on any non-delivered outcome. -/
def batch_step (transport : String → TransportResult)
    (acc : Summary × List (String × String)) (tok : RecipientTok) :
    Summary × List (String × String) :=
  let r := send_single transport tok
  if r.ok then
    let s := acc.1
    let s :=
      if tok.token_type == "ios" then
        { s with success := s.success + 1, ios_success := s.ios_success + 1 }
      else if tok.token_type == "fcm" then
        { s with success := s.success + 1, fcm_success := s.fcm_success + 1 }
      else
        { s with
          success := s.success + 1,
          android_success := s.android_success + 1 }
    (s, acc.2)
  else
    match r.error_info with
    | some (etype, emsg) =>
      if etype == "pruned" then
        ({ acc.1 with pruned := acc.1.pruned + 1 }, acc.2)
      else
        ({ acc.1 with errors := acc.1.errors + 1 },
         acc.2 ++ [(tok.token, emsg)])
    | none =>
      ({ acc.1 with errors := acc.1.errors + 1 },
       acc.2 ++ [(tok.token, "Unknown error - no error info returned")])

/-- Embedding of `send_batch`: strictly sequential fold of the batch through
the single-send unit, from zero counters and an empty error list. -/
def send_batch (transport : String → TransportResult)
    (batch : List RecipientTok) : Summary × List (String × String) :=
  batch.foldl (batch_step transport) (emptySummary, [])

/-- Fueled worker for `chunkList`. -/
def chunkAux (n : Nat) : Nat → List RecipientTok → List (List RecipientTok)
  | 0, _ => []
  | _ + 1, [] => []
  | fuel + 1, l => l.take n :: chunkAux n fuel (l.drop n)

/-- Embedding of the batch partition loop
`for i in range(0, len(tokens), batch_size)` (lines 444-447): contiguous
chunks of size `n`, the last one possibly shorter. The source never runs it
with a zero batch size (range would raise); that case returns no batches. -/
def chunkList (n : Nat) (l : List RecipientTok) : List (List RecipientTok) :=
  if n = 0 then [] else chunkAux n l.length l

/-- One merge iteration of the completion loop (lines 450-456): field-wise
counter addition and error list extension. -/
def mergeStep (acc p : Summary × List (String × String)) :
    Summary × List (String × String) :=
  (addSummary acc.1 p.1, acc.2 ++ p.2)

/-- Aggregation of the partial batch results in the order the futures
complete, from zero counters and an empty error list. -/
def aggregate (parts : List (Summary × List (String × String))) :
    Summary × List (String × String) :=
  parts.foldl mergeStep (emptySummary, [])

/-- The value of the Python variable `batch` inside the completion loop:
the submission loop leaves it bound to the last submitted batch. -/
def lastSubmittedBatch (tokens : List RecipientTok) (batch_size : Nat) :
    List RecipientTok :=
  (chunkList batch_size tokens).getLastD []

/-- Embedding of the `completed` counter after `k` completed futures
(lines 449-458): each iteration runs `completed += len(batch)` with the
stale `batch` variable, so each completion adds the length of the last
submitted batch. -/
def completedAfter (tokens : List RecipientTok) (batch_size k : Nat) : Nat :=
  k * (lastSubmittedBatch tokens batch_size).length

/-- The SendSummary invariant of the specification, for a summary covering
`n` processed tokens. -/
def summaryInv (s : Summary) (n : Nat) : Prop :=
  s.success = s.ios_success + s.android_success + s.fcm_success ∧
  s.success + s.errors + s.pruned = n

instance (s : Summary) (n : Nat) : Decidable (summaryInv s n) := by
  unfold summaryInv
  exact inferInstance

/-! ## Shared demo inputs used by concrete witnesses -/

def demoTok1 : RecipientTok :=
  ⟨none, "demotokenone1234", false, "android", ""⟩

def demoTok2 : RecipientTok :=
  ⟨none, "demotokentwo1234", false, "ios", ""⟩

def demoTok3 : RecipientTok :=
  ⟨none, "demotokenthree12", false, "fcm", ""⟩

def demoToks : List RecipientTok :=
  [demoTok1, demoTok2, demoTok3]

/-- Demo transport: the first demo token fails with a terminal signal,
every other token is delivered. -/
def demoTransport : String → TransportResult := fun t =>
  if t = "demotokenone1234" then TransportResult.fcmError "" "unregistered"
  else TransportResult.ok "receipt-1"

/-! ## Helper lemmas -/

theorem string_data_append (a b : String) : (a ++ b).data = a.data ++ b.data := by
  cases a
  cases b
  rfl

/-- Every branch of the FirebaseError handler tags its outcome "error". -/
theorem send_error_info_tag (token_type code msg : String) :
    (send_error_info token_type code msg).1 = "error" := by
  simp only [send_error_info]
  split
  · rfl
  · split <;> split <;> rfl

/-- Whenever the single-send unit returns error information, the tag is
"error"; the tuple tag "pruned" is never produced. -/
theorem send_single_tag (transport : String → TransportResult)
    (tok : RecipientTok) (e : String × String)
    (h : (send_single transport tok).error_info = some e) : e.1 = "error" := by
  unfold send_single at h
  rcases htr : transport tok.token with r | ⟨code, msg⟩ | msg <;> rw [htr] at h
  · simp at h
  · simp at h
    rw [← h]
    exact send_error_info_tag tok.token_type code msg
  · simp at h
    rw [← h]

/-- One batch-worker iteration adds exactly one token to exactly one of the
success, errors, pruned counters and keeps the channel split consistent. -/
theorem batch_step_inv (transport : String → TransportResult)
    (acc : Summary × List (String × String)) (tok : RecipientTok) (n : Nat)
    (h : summaryInv acc.1 n) :
    summaryInv (batch_step transport acc tok).1 (n + 1) := by
  obtain ⟨h1, h2⟩ := h
  unfold batch_step
  rcases hr : send_single transport tok with ⟨ok, resp, einfo⟩
  rcases ok <;> rcases einfo with _ | ⟨etype, emsg⟩ <;>
    simp only [summaryInv] <;> split_ifs <;>
    constructor <;> simp <;> omega

/-- One batch-worker iteration never touches the pruned counter and keeps
the errors counter equal to the error-list length. -/
theorem batch_step_q (transport : String → TransportResult)
    (acc : Summary × List (String × String)) (tok : RecipientTok)
    (hp : acc.1.pruned = 0) (he : acc.1.errors = acc.2.length) :
    (batch_step transport acc tok).1.pruned = 0 ∧
    (batch_step transport acc tok).1.errors =
      (batch_step transport acc tok).2.length := by
  unfold batch_step
  rcases hr : send_single transport tok with ⟨ok, resp, einfo⟩
  rcases ok <;> rcases einfo with _ | ⟨etype, emsg⟩
  · simp [hp, he]
  · have htag : etype = "error" := by
      have := send_single_tag transport tok (etype, emsg)
      rw [hr] at this
      exact this rfl
    subst htag
    simp [hp, he]
  · split_ifs <;> simp [hp, he]
  · split_ifs <;> simp [hp, he]

theorem foldl_batch_inv (transport : String → TransportResult)
    (l : List RecipientTok) :
    ∀ (acc : Summary × List (String × String)) (n : Nat), summaryInv acc.1 n →
    summaryInv ((l.foldl (batch_step transport) acc).1) (n + l.length) := by
  induction l with
  | nil => intro acc n h; simpa using h
  | cons a as ih =>
    intro acc n h
    have hstep := batch_step_inv transport acc a n h
    have := ih (batch_step transport acc a) (n + 1) hstep
    simpa [Nat.add_assoc, Nat.add_comm, Nat.add_left_comm] using this

/-- The partial summary of one batch satisfies the SendSummary invariant
with the batch length as token count. -/
theorem send_batch_inv (transport : String → TransportResult)
    (b : List RecipientTok) :
    summaryInv (send_batch transport b).1 b.length := by
  have h0 : summaryInv (emptySummary, ([] : List (String × String))).1 0 := by
    constructor <;> rfl
  have := foldl_batch_inv transport b (emptySummary, []) 0 h0
  simpa [send_batch] using this

theorem foldl_batch_q (transport : String → TransportResult)
    (l : List RecipientTok) :
    ∀ (acc : Summary × List (String × String)), acc.1.pruned = 0 →
    acc.1.errors = acc.2.length →
    ((l.foldl (batch_step transport) acc).1.pruned = 0 ∧
     (l.foldl (batch_step transport) acc).1.errors =
       (l.foldl (batch_step transport) acc).2.length) := by
  induction l with
  | nil => intro acc hp he; exact ⟨hp, he⟩
  | cons a as ih =>
    intro acc hp he
    have hstep := batch_step_q transport acc a hp he
    exact ih (batch_step transport acc a) hstep.1 hstep.2

/-- The partial summary of one batch has pruned = 0 and an errors counter
equal to the length of its error list. -/
theorem send_batch_q (transport : String → TransportResult)
    (b : List RecipientTok) :
    (send_batch transport b).1.pruned = 0 ∧
    (send_batch transport b).1.errors = (send_batch transport b).2.length := by
  have := foldl_batch_q transport b (emptySummary, []) rfl rfl
  simpa [send_batch] using this

theorem foldl_merge_field (f : Summary → Nat)
    (hf : ∀ a b, f (addSummary a b) = f a + f b)
    (l : List (Summary × List (String × String))) :
    ∀ acc, f ((l.foldl mergeStep acc).1) =
      f acc.1 + (l.map (fun p => f p.1)).sum := by
  induction l with
  | nil => intro acc; simp
  | cons a as ih =>
    intro acc
    simp only [List.foldl_cons, List.map_cons, List.sum_cons]
    rw [ih]
    simp only [mergeStep, hf]
    omega

theorem aggregate_field (f : Summary → Nat)
    (hf : ∀ a b, f (addSummary a b) = f a + f b)
    (hz : f emptySummary = 0)
    (l : List (Summary × List (String × String))) :
    f (aggregate l).1 = (l.map (fun p => f p.1)).sum := by
  have := foldl_merge_field f hf l (emptySummary, [])
  simpa [aggregate, hz] using this

theorem foldl_merge_snd (l : List (Summary × List (String × String))) :
    ∀ acc, (l.foldl mergeStep acc).2 = acc.2 ++ (l.map (fun p => p.2)).flatten := by
  induction l with
  | nil => intro acc; simp
  | cons a as ih =>
    intro acc
    simp only [List.foldl_cons, List.map_cons, List.flatten]
    rw [ih]
    simp [mergeStep]

theorem aggregate_snd (l : List (Summary × List (String × String))) :
    (aggregate l).2 = (l.map (fun p => p.2)).flatten := by
  have := foldl_merge_snd l (emptySummary, [])
  simpa [aggregate] using this

theorem sum_map_addf {α : Type} (l : List α) (f g : α → Nat) :
    (l.map (fun x => f x + g x)).sum = (l.map f).sum + (l.map g).sum := by
  induction l with
  | nil => rfl
  | cons a as ih => simp [ih]; omega

theorem chunkAux_join (n : Nat) (hn : n ≠ 0) :
    ∀ (fuel : Nat) (l : List RecipientTok), l.length ≤ fuel →
    (chunkAux n fuel l).flatten = l := by
  intro fuel
  induction fuel with
  | zero =>
    intro l hl
    have : l = [] := List.eq_nil_of_length_eq_zero (Nat.le_zero.mp hl)
    subst this
    rfl
  | succ fuel ih =>
    intro l hl
    cases l with
    | nil => rfl
    | cons a as =>
      show (((a :: as).take n) :: chunkAux n fuel ((a :: as).drop n)).flatten = a :: as
      have hbound : ((a :: as).drop n).length ≤ fuel := by
        rw [List.length_drop]
        simp only [List.length_cons] at hl ⊢
        omega
      simp only [List.flatten]
      rw [ih ((a :: as).drop n) hbound]
      exact List.take_append_drop n (a :: as)

/-- Concatenating the batch partition recovers the token list. -/
theorem chunkList_join (n : Nat) (hn : n ≠ 0) (l : List RecipientTok) :
    (chunkList n l).flatten = l := by
  unfold chunkList
  rw [if_neg hn]
  exact chunkAux_join n hn l.length l le_rfl

/-- A generic transient message never coincides with the terminal
invalid-token message: the two message spaces are disjoint. -/
theorem fcm_msg_ne_invalid_msg (x y : String) :
    ("FCM error: " ++ x) ≠
      ("Invalid/expired token detected (not pruned): " ++ y) := by
  intro h
  have hd : ("FCM error: " ++ x).data =
      ("Invalid/expired token detected (not pruned): " ++ y).data := by rw [h]
  rw [string_data_append, string_data_append] at hd
  have e1 : "FCM error: ".data = 'F' :: "CM error: ".data := rfl
  have e2 : "Invalid/expired token detected (not pruned): ".data =
      'I' :: "nvalid/expired token detected (not pruned): ".data := rfl
  rw [e1, e2, List.cons_append, List.cons_append] at hd
  injection hd with hc _
  exact absurd hc (by decide)

/-! ## Claim theorems -/

/-- C1 counterexample: a token whose send fails with the explicit terminal
signal "unregistered" is counted in the generic `errors` counter itself
(errors = 1, pruned = 0), so terminal invalid-token failures are NOT counted
separately from generic errors; the distinction survives only in the error
message text. -/
theorem invalid_token_in_generic_errors_cex :
    (send_batch demoTransport [demoTok1]).1.errors = 1 ∧
    (send_batch demoTransport [demoTok1]).1.pruned = 0 ∧
    (send_batch demoTransport [demoTok1]).2 =
      [("demotokenone1234",
        "Invalid/expired token detected (not pruned): unregistered")] := by
  decide

/-- C1 (amended): for every token whose send fails with an explicit terminal
signal from the transport (and which hits neither the iOS-APNs special case
nor the channel-mismatch suppression), the outcome is recorded with the
distinct message "Invalid/expired token detected (not pruned): ..." in the
error list, but it increments the same generic `errors` counter as transient
failures, and the `pruned` counter is not incremented. -/
theorem invalid_token_same_counter (transport : String → TransportResult)
    (tok : RecipientTok) (code msg : String)
    (htr : transport tok.token = TransportResult.fcmError code msg)
    (hni : tok.token_type ≠ "ios")
    (hterm : (pyContains (pyLower msg) "invalid-registration-token" ||
      pyContains (pyLower msg) "unregistered" ||
      (pyLower code == "not_found")) = true)
    (hna : pyContains (pyLower msg) "auth error from apns" = false)
    (hnw : pyContains (pyLower msg) "auth error from web push service" = false) :
    (send_batch transport [tok]).1.errors = 1 ∧
    (send_batch transport [tok]).1.pruned = 0 ∧
    (send_batch transport [tok]).2 =
      [(tok.token, "Invalid/expired token detected (not pruned): " ++
        (pyLower msg).take 80)] := by
  have hbeq : (tok.token_type == "ios") = false := beq_eq_false_iff_ne.mpr hni
  have hinfo : send_error_info tok.token_type code msg =
      ("error", "Invalid/expired token detected (not pruned): " ++
        (pyLower msg).take 80) := by
    simp [send_error_info, hbeq, hna, hnw, hterm, bne]
  simp [send_batch, batch_step, send_single, htr, hinfo, emptySummary]

/-- C1 witness: the amended statement applied to the demo token whose
transport result is a terminal "unregistered" FirebaseError. -/
theorem invalid_token_same_counter_witness :
    demoTransport demoTok1.token = TransportResult.fcmError "" "unregistered" ∧
    demoTok1.token_type ≠ "ios" ∧
    (pyContains (pyLower "unregistered") "invalid-registration-token" ||
      pyContains (pyLower "unregistered") "unregistered" ||
      (pyLower "" == "not_found")) = true ∧
    pyContains (pyLower "unregistered") "auth error from apns" = false ∧
    pyContains (pyLower "unregistered") "auth error from web push service" = false ∧
    ((send_batch demoTransport [demoTok1]).1.errors = 1 ∧
     (send_batch demoTransport [demoTok1]).1.pruned = 0 ∧
     (send_batch demoTransport [demoTok1]).2 =
       [(demoTok1.token, "Invalid/expired token detected (not pruned): " ++
         (pyLower "unregistered").take 80)]) :=
  ⟨by decide, by decide, by decide, by decide, by decide,
   invalid_token_same_counter demoTransport demoTok1 "" "unregistered"
     (by decide) (by decide) (by decide) (by decide) (by decide)⟩

/-- C2 (code bug): the completion loop increments `completed` by the length
of the stale `batch` variable, which the submission loop left bound to the
LAST submitted batch. With 3 tokens and batch size 2 the batches have
lengths 2 and 1, yet each completion adds 1, so the loop reports 1 of 3
after the first completion and only 2 of 3 after the last batch completes,
although all 3 tokens were processed; the claimed value is
completed_tokens / total_tokens, reaching 3 of 3. -/
theorem progress_counter_stale_batch_bug :
    demoToks.length = 3 ∧
    (chunkList 2 demoToks).length = 2 ∧
    ((chunkList 2 demoToks).map List.length) = [2, 1] ∧
    completedAfter demoToks 2 1 = 1 ∧
    completedAfter demoToks 2 2 = 2 := by
  decide

/-- C3: the final SendSummary of a run satisfies
success = ios_success + android_success + universal_success and
success + errors + pruned = total tokens of the completed batches, for any
completion order of the batch futures; each partial batch summary satisfies
the same invariant with its own batch length, and the field-wise merge of
two summaries satisfying the invariant satisfies it for the summed counts. -/
theorem summary_invariant (transport : String → TransportResult)
    (tokens : List RecipientTok) (batch_size : Nat)
    (parts : List (Summary × List (String × String)))
    (b : List RecipientTok) (s1 s2 : Summary) (n1 n2 : Nat)
    (hbs : batch_size ≠ 0)
    (hperm : parts.Perm
      ((chunkList batch_size tokens).map (send_batch transport)))
    (h1 : summaryInv s1 n1) (h2 : summaryInv s2 n2) :
    summaryInv (aggregate parts).1 tokens.length ∧
    summaryInv (send_batch transport b).1 b.length ∧
    summaryInv (addSummary s1 s2) (n1 + n2) := by
  refine ⟨⟨?_, ?_⟩, send_batch_inv transport b, ?_⟩
  · have hmem : ∀ p ∈ parts, p.1.success =
        p.1.ios_success + p.1.android_success + p.1.fcm_success := by
      intro p hp
      have hp2 := hperm.mem_iff.mp hp
      rw [List.mem_map] at hp2
      obtain ⟨bb, hbb, rfl⟩ := hp2
      exact (send_batch_inv transport bb).1
    rw [aggregate_field (fun s => s.success) (fun a b => rfl) rfl,
        aggregate_field (fun s => s.ios_success) (fun a b => rfl) rfl,
        aggregate_field (fun s => s.android_success) (fun a b => rfl) rfl,
        aggregate_field (fun s => s.fcm_success) (fun a b => rfl) rfl,
        List.map_congr_left hmem, sum_map_addf, sum_map_addf]
  · have hw : (parts.map
        (fun p => p.1.success + p.1.errors + p.1.pruned)).sum =
        tokens.length := by
      have hs := (hperm.map
        (fun p => p.1.success + p.1.errors + p.1.pruned)).sum_eq
      rw [hs, List.map_map]
      have hcg : ((chunkList batch_size tokens).map
          ((fun p => p.1.success + p.1.errors + p.1.pruned) ∘
            send_batch transport)) =
          (chunkList batch_size tokens).map List.length := by
        apply List.map_congr_left
        intro bb hbb
        exact (send_batch_inv transport bb).2
      rw [hcg, ← List.length_flatten, chunkList_join batch_size hbs tokens]
    rw [aggregate_field (fun s => s.success) (fun a b => rfl) rfl,
        aggregate_field (fun s => s.errors) (fun a b => rfl) rfl,
        aggregate_field (fun s => s.pruned) (fun a b => rfl) rfl]
    rw [sum_map_addf, sum_map_addf] at hw
    exact hw
  · simp only [summaryInv, addSummary] at h1 h2 ⊢
    omega

/-- C3 witness: the invariant instantiated on the 3-token demo run with
batch size 2 (one delivery failure, two successes on distinct channels). -/
theorem summary_invariant_witness :
    ((2 : Nat) ≠ 0) ∧
    (((chunkList 2 demoToks).map (send_batch demoTransport)).Perm
      ((chunkList 2 demoToks).map (send_batch demoTransport))) ∧
    summaryInv ⟨1, 0, 0, 1, 0, 0⟩ 1 ∧ summaryInv ⟨0, 1, 2, 0, 0, 0⟩ 3 ∧
    (summaryInv (aggregate ((chunkList 2 demoToks).map
      (send_batch demoTransport))).1 demoToks.length ∧
     summaryInv (send_batch demoTransport [demoTok2]).1 [demoTok2].length ∧
     summaryInv (addSummary ⟨1, 0, 0, 1, 0, 0⟩ ⟨0, 1, 2, 0, 0, 0⟩) (1 + 3)) :=
  ⟨by decide, List.Perm.refl _, by decide, by decide,
   summary_invariant demoTransport demoToks 2 _ [demoTok2] _ _ 1 3
     (by decide) (List.Perm.refl _) (by decide) (by decide)⟩

/-- C4: merging the same multiset of partial batch summaries in any
permutation of completion order yields an identical final SendSummary (the
field-wise counter merge is commutative and order-independent). -/
theorem merge_order_independent
    (parts1 parts2 : List (Summary × List (String × String)))
    (h : parts1.Perm parts2) :
    (aggregate parts1).1 = (aggregate parts2).1 := by
  have hf : ∀ (f : Summary → Nat), (∀ a b, f (addSummary a b) = f a + f b) →
      f emptySummary = 0 →
      f (aggregate parts1).1 = f (aggregate parts2).1 := by
    intro f hadd hz
    rw [aggregate_field f hadd hz, aggregate_field f hadd hz]
    exact (h.map (fun p => f p.1)).sum_eq
  apply Summary.ext
  · exact hf (fun s => s.success) (fun a b => rfl) rfl
  · exact hf (fun s => s.pruned) (fun a b => rfl) rfl
  · exact hf (fun s => s.errors) (fun a b => rfl) rfl
  · exact hf (fun s => s.ios_success) (fun a b => rfl) rfl
  · exact hf (fun s => s.android_success) (fun a b => rfl) rfl
  · exact hf (fun s => s.fcm_success) (fun a b => rfl) rfl

/-- C4 witness: two concrete partial results merged in both orders give the
same summary. -/
theorem merge_order_independent_witness :
    ([((⟨1, 0, 1, 1, 0, 0⟩ : Summary), [("t", "e")]),
      ((⟨2, 0, 0, 0, 1, 1⟩ : Summary), [])]).Perm
      [((⟨2, 0, 0, 0, 1, 1⟩ : Summary), []),
       ((⟨1, 0, 1, 1, 0, 0⟩ : Summary), [("t", "e")])] ∧
    (aggregate [((⟨1, 0, 1, 1, 0, 0⟩ : Summary), [("t", "e")]),
      ((⟨2, 0, 0, 0, 1, 1⟩ : Summary), [])]).1 =
    (aggregate [((⟨2, 0, 0, 0, 1, 1⟩ : Summary), []),
      ((⟨1, 0, 1, 1, 0, 0⟩ : Summary), [("t", "e")])]).1 :=
  ⟨by decide, merge_order_independent _ _ (by decide)⟩

/-- C5: the classifier applies its rules in order: null/empty token or one
of length below 10 is unknown; otherwise a legacy-Android-style start
("APA91b", "AAAA") is android; otherwise one of the legacy-iOS
single-character lead characters ("f", "d", "e", "c") is ios; otherwise
length above 140 is universal; otherwise android. The source classifier
agrees with this rule order on every token, up to the renaming of the
universal channel ("fcm" in the source). -/
theorem classifier_rule_order (token : String) :
    channelOfCode (detect_token_type token) = classify_claim token := by
  have hany : (["f", "d", "e", "c"].any (fun p => pyStartsWith token p) = true) ↔
      (pyStartsWith token "f" = true ∨ pyStartsWith token "d" = true ∨
       pyStartsWith token "e" = true ∨ pyStartsWith token "c" = true) := by
    simp [List.any]
  by_cases h1 : token = "" ∨ token.length < 10
  · simp [detect_token_type, classify_claim, channelOfCode, h1]
  · by_cases h2 : pyStartsWith token "APA91b" ∨ pyStartsWith token "AAAA"
    · simp [detect_token_type, classify_claim, channelOfCode, h1, h2]
    · by_cases h3 : pyStartsWith token "f" = true ∨ pyStartsWith token "d" = true ∨
          pyStartsWith token "e" = true ∨ pyStartsWith token "c" = true
      · simp [detect_token_type, classify_claim, channelOfCode, h1, h2, h3, hany]
      · by_cases h4 : token.length > 140
        · simp [detect_token_type, classify_claim, channelOfCode, h1, h2, h3, h4, hany]
        · simp [detect_token_type, classify_claim, channelOfCode, h1, h2, h3, h4, hany]

/-- C6 counterexample: for the non-empty name " John" (leading space) the
claim computes firstname as the substring up to the first whitespace, which
is empty, while the source takes the first whitespace-delimited word
"John"; the two personalizations differ. -/
theorem personalize_leading_space_cex :
    personalize_text "{firstname}" " John" ≠
      some (personalize_claim "{firstname}" " John") ∧
    personalize_text "{firstname}" " John" = some "John" ∧
    personalize_claim "{firstname}" " John" = "" := by
  decide

/-- C6 (amended): for every text and every name containing at least one
non-whitespace character, personalize returns the text with the two
full-name placeholder forms replaced by the name and the four first-name
forms replaced by the first whitespace-delimited word of the name (leading
whitespace skipped); for the empty/absent name the text is returned
unchanged. A non-empty all-whitespace name makes the source raise
(IndexError), modelled as no return value. -/
theorem personalize_firstword (text name : String)
    (h : name.data.any (fun c => !c.isWhitespace) = true) :
    personalize_text text name =
      some (applyReplacements text name (firstname_word name)) ∧
    personalize_text text "" = some text := by
  constructor
  · have hne : name ≠ "" := by
      intro he
      subst he
      exact absurd h (by decide)
    have hdrop : name.data.dropWhile Char.isWhitespace ≠ [] := by
      intro hd
      rw [List.dropWhile_eq_nil_iff] at hd
      rw [List.any_eq_true] at h
      obtain ⟨c, hc, hcw⟩ := h
      have hw := hd c hc
      rw [hw] at hcw
      exact absurd hcw (by decide)
    have hsplit : pySplitHead name.data =
        some ((name.data.dropWhile Char.isWhitespace).takeWhile
          (fun c => !c.isWhitespace)) := by
      unfold pySplitHead
      simp [List.isEmpty_iff, hdrop]
    simp only [personalize_text, if_neg hne, hsplit]
    rfl
  · simp [personalize_text]

/-- C6 witness: the amended statement applied to the name "Shameer K" and a
template using both placeholder families. -/
theorem personalize_firstword_witness :
    ("Shameer K".data.any (fun c => !c.isWhitespace) = true) ∧
    (personalize_text "Hi {firstname}, {name}" "Shameer K" =
      some (applyReplacements "Hi {firstname}, {name}" "Shameer K"
        (firstname_word "Shameer K")) ∧
     personalize_text "Hi {firstname}, {name}" "" =
      some "Hi {firstname}, {name}") :=
  ⟨by decide, personalize_firstword "Hi {firstname}, {name}" "Shameer K" (by decide)⟩

/-- C7 counterexample: a candidate token containing a tab and a trailing
space is accepted by the pre-filter although it contains whitespace, because
the source checks only the literal space character on the stripped token. -/
theorem validate_token_whitespace_cex :
    validate_token "aaaaaaaaaa\tb " = true ∧
    "aaaaaaaaaa\tb ".data.any Char.isWhitespace = true := by
  decide

/-- C7 (amended): the pre-filter accepts a candidate token exactly when its
whitespace-stripped form has length strictly between 10 and 4096 and
contains no space character (other whitespace such as tab is not checked);
and an entry passes the pre-send filter exactly when it belongs to the input
list and its token is accepted, so every rejected token is excluded from the
run. -/
theorem validate_token_space_strip (token : String)
    (tokens : List RecipientTok) (t : RecipientTok) :
    (validate_token token = true ↔
      (10 < (pyStrip token).length ∧ (pyStrip token).length < 4096 ∧
       pyHasChar (pyStrip token) ' ' = false)) ∧
    (t ∈ valid_tokens_filter tokens ↔
      (t ∈ tokens ∧ validate_token t.token = true)) := by
  constructor
  · unfold validate_token
    simp only [Bool.and_eq_true, decide_eq_true_eq, Bool.not_eq_true']
    constructor
    · rintro ⟨⟨⟨a, b⟩, c⟩, d⟩
      exact ⟨a, b, c⟩
    · rintro ⟨a, b, c⟩
      exact ⟨⟨⟨a, b⟩, c⟩, by omega⟩
  · simp [valid_tokens_filter, List.mem_filter]

/-- C8: exactly one platform-shaped configuration branch is attached to the
outgoing message, never both: the iOS branch is attached exactly when the
effective channel after the operator platform override is "ios", and every
other effective channel (android, fcm/universal, unknown, or anything else)
yields the Android-shaped branch. -/
theorem platform_branch_exclusive (forced token token_type ptitle pbody
    click_action route screen : String) (now : Nat)
    (campaign_id campaign_name : Option String) (cohort_tags : List String)
    (apns_topic : Option String) :
    (buildMessage forced token token_type ptitle pbody click_action route
      screen now campaign_id campaign_name cohort_tags apns_topic).apns.isSome
      = (applyOverride forced token_type == "ios") ∧
    (buildMessage forced token token_type ptitle pbody click_action route
      screen now campaign_id campaign_name cohort_tags apns_topic).android.isSome
      = !(applyOverride forced token_type == "ios") := by
  by_cases h : applyOverride forced token_type = "ios" <;>
    simp [buildMessage, h]

/-- C9: a send failure on a token not classified as ios whose message
carries a channel-mismatch authentication signal (APNs or web-push-service
auth failure) is classified as a generic transient error ("FCM error: ..."),
and never as the terminal invalid-token outcome, even when the message also
contains a terminal signal substring. -/
theorem channel_mismatch_transient (token_type error_code raw_msg : String)
    (hni : token_type ≠ "ios")
    (hauth : (pyContains (pyLower raw_msg) "auth error from apns" ||
      pyContains (pyLower raw_msg) "auth error from web push service") = true) :
    send_error_info token_type error_code raw_msg =
      ("error", "FCM error: " ++ raw_msg) ∧
    ((send_error_info token_type error_code raw_msg).2 ==
      ("Invalid/expired token detected (not pruned): " ++
        (pyLower raw_msg).take 80)) = false := by
  have hbeq : (token_type == "ios") = false := beq_eq_false_iff_ne.mpr hni
  have heq : send_error_info token_type error_code raw_msg =
      ("error", "FCM error: " ++ raw_msg) := by
    simp [send_error_info, hbeq, hauth, bne]
  refine ⟨heq, ?_⟩
  rw [heq]
  exact beq_eq_false_iff_ne.mpr (fcm_msg_ne_invalid_msg raw_msg _)

/-- C9 witness: an android-classified token failing with a message that
contains both the terminal signal "unregistered" and the channel-mismatch
signal "auth error from apns" is still classified as a generic transient
error. -/
theorem channel_mismatch_transient_witness :
    ("android" : String) ≠ "ios" ∧
    (pyContains (pyLower "Unregistered: Auth error from APNS") "auth error from apns" ||
      pyContains (pyLower "Unregistered: Auth error from APNS") "auth error from web push service") = true ∧
    (send_error_info "android" "x" "Unregistered: Auth error from APNS" =
      ("error", "FCM error: Unregistered: Auth error from APNS") ∧
    ((send_error_info "android" "x" "Unregistered: Auth error from APNS").2 ==
      ("Invalid/expired token detected (not pruned): " ++
        (pyLower "Unregistered: Auth error from APNS").take 80)) = false) :=
  ⟨by decide, by decide,
   channel_mismatch_transient "android" "x" "Unregistered: Auth error from APNS"
     (by decide) (by decide)⟩

/-- C10 (implicit): for every run and every completion order, the final
SendSummary has pruned = 0 (the single-send unit never produces a
"pruned"-tagged outcome, so the batch worker never increments that counter),
and the errors counter equals the length of the aggregated error list, so
every non-delivered token is counted in errors and appended there. -/
theorem pruned_always_zero (transport : String → TransportResult)
    (tokens : List RecipientTok) (batch_size : Nat)
    (parts : List (Summary × List (String × String)))
    (hperm : parts.Perm
      ((chunkList batch_size tokens).map (send_batch transport))) :
    (aggregate parts).1.pruned = 0 ∧
    (aggregate parts).1.errors = (aggregate parts).2.length := by
  have hmem : ∀ p ∈ parts, p.1.pruned = 0 ∧ p.1.errors = p.2.length := by
    intro p hp
    have hp2 := hperm.mem_iff.mp hp
    rw [List.mem_map] at hp2
    obtain ⟨bb, hbb, rfl⟩ := hp2
    exact send_batch_q transport bb
  constructor
  · rw [aggregate_field (fun s => s.pruned) (fun a b => rfl) rfl,
        List.map_congr_left (fun p hp => (hmem p hp).1)]
    simp
  · rw [aggregate_field (fun s => s.errors) (fun a b => rfl) rfl,
        aggregate_snd, List.length_flatten, List.map_map]
    exact congrArg List.sum
      (List.map_congr_left (fun p hp => (hmem p hp).2))

/-- C10 witness: the statement applied to the 3-token demo run (one terminal
failure, two deliveries) with batch size 2. -/
theorem pruned_always_zero_witness :
    (((chunkList 2 demoToks).map (send_batch demoTransport)).Perm
      ((chunkList 2 demoToks).map (send_batch demoTransport))) ∧
    ((aggregate ((chunkList 2 demoToks).map
        (send_batch demoTransport))).1.pruned = 0 ∧
     (aggregate ((chunkList 2 demoToks).map
        (send_batch demoTransport))).1.errors =
       (aggregate ((chunkList 2 demoToks).map
        (send_batch demoTransport))).2.length) :=
  ⟨List.Perm.refl _,
   pruned_always_zero demoTransport demoToks 2 _ (List.Perm.refl _)⟩

end NotifSpec
